import Mathlib

/-!
Shallow embedding of the persistence layer of `IncidentDesk.py` (class `DB`),
a SQLite-backed incident store.  Tables are modelled as lists of rows in
insertion (rowid) order; `INTEGER PRIMARY KEY` id assignment is modelled by
SQLite's rule (max existing id + 1).  The schema runs
`PRAGMA foreign_keys = ON`, so foreign-key constraints are enforced:
inserts/updates referencing a missing parent row and deletes of a referenced
parent row raise `sqlite3.IntegrityError`, modelled here by `Except.error`;
`ON DELETE CASCADE` on `incident_units.incident_id` and `notes.incident_id`
is modelled by cascading removal in `delete_incident`.
-/

namespace IncidentDesk

/-- Row of the `locations` table: `id INTEGER PRIMARY KEY, name TEXT NOT NULL UNIQUE`. -/
structure LocationRow where
  id : Nat
  name : String
deriving DecidableEq

/-- Row of the `units` table: `id, name TEXT NOT NULL UNIQUE, category TEXT DEFAULT ''`. -/
structure UnitRow where
  id : Nat
  name : String
  category : String
deriving DecidableEq

/-- Row of the `incident_types` table: `id, name TEXT NOT NULL UNIQUE`. -/
structure TypeRow where
  id : Nat
  name : String
deriving DecidableEq

/-- Row of the `incidents` table (all columns of the schema). -/
structure IncidentRow where
  id : Nat
  location_id : Option Nat
  type : String
  reported_at : String
  dispatched_at : String
  arrived_at : String
  cleared_at : String
  disposition : String
  is_cleared : Nat
deriving DecidableEq

/-- Row of the `incident_units` table: one assignment of a unit to an incident
with `role in ('primary','backup')`. -/
structure AssignRow where
  id : Nat
  incident_id : Nat
  unit_id : Nat
  role : String
deriving DecidableEq

/-- Row of the `notes` table. -/
structure NoteRow where
  id : Nat
  incident_id : Nat
  ts : String
  body : String
deriving DecidableEq

/-- The whole database: the five tables created by `DB._init_schema`. -/
structure DBState where
  locations : List LocationRow
  units : List UnitRow
  incident_types : List TypeRow
  incidents : List IncidentRow
  incident_units : List AssignRow
  notes : List NoteRow
deriving DecidableEq

/-- A freshly initialised database (all tables empty). -/
def emptyDB : DBState := ⟨[], [], [], [], [], []⟩

/-- SQLite id assignment for `INTEGER PRIMARY KEY` without an explicit value:
one more than the largest existing id (1 on an empty table). -/
def nextId (ids : List Nat) : Nat := ids.foldr max 0 + 1

/-- Python `str.strip()`: remove leading and trailing whitespace. -/
def pyStrip (s : String) : String :=
  String.mk (((s.data.dropWhile Char.isWhitespace).reverse.dropWhile Char.isWhitespace).reverse)

/-- Byte-wise (codepoint-wise) lexicographic `≤` on character lists, the order
SQLite's default BINARY collation gives `TEXT` comparisons on the app's
ASCII timestamp strings. -/
def charLeb : List Char → List Char → Bool
  | [], _ => true
  | _ :: _, [] => false
  | a :: as, b :: bs =>
      if a.toNat < b.toNat then true
      else if b.toNat < a.toNat then false
      else charLeb as bs

/-- SQLite BINARY-collation `≤` on strings. -/
def strLeb (a b : String) : Bool := charLeb a.data b.data

/-- `DB.add_location`: `INSERT OR IGNORE INTO locations(name) VALUES(?)` with
`name.strip()`; a `UNIQUE(name)` conflict is silently ignored. -/
def add_location (s : DBState) (name : String) : DBState :=
  let n := pyStrip name
  if s.locations.any (fun r => r.name == n) then s
  else { s with locations := s.locations ++ [⟨nextId (s.locations.map (fun r => r.id)), n⟩] }

/-- `DB.add_unit`: `INSERT OR IGNORE INTO units(name, category)` with both
arguments stripped; a `UNIQUE(name)` conflict is silently ignored. -/
def add_unit (s : DBState) (name : String) (category : String) : DBState :=
  let n := pyStrip name
  if s.units.any (fun r => r.name == n) then s
  else { s with units := s.units ++ [⟨nextId (s.units.map (fun r => r.id)), n, pyStrip category⟩] }

/-- `DB.add_incident_type`: `INSERT OR IGNORE INTO incident_types(name)` with
`name.strip()`; a `UNIQUE(name)` conflict is silently ignored. -/
def add_incident_type (s : DBState) (name : String) : DBState :=
  let n := pyStrip name
  if s.incident_types.any (fun r => r.name == n) then s
  else { s with incident_types := s.incident_types ++ [⟨nextId (s.incident_types.map (fun r => r.id)), n⟩] }

/-- Does any incident reference this location?  (`incidents.location_id`
carries a foreign key to `locations(id)` with no cascade action.) -/
def locationReferenced (s : DBState) (loc_id : Nat) : Bool :=
  s.incidents.any (fun r => r.location_id == some loc_id)

/-- `DB.delete_location`: `DELETE FROM locations WHERE id=?`.  With
`PRAGMA foreign_keys = ON`, deleting a location still referenced by an
incident raises `IntegrityError` (the foreign key has no ON DELETE action). -/
def delete_location (s : DBState) (loc_id : Nat) : Except String DBState :=
  if locationReferenced s loc_id then Except.error "FOREIGN KEY constraint failed"
  else Except.ok { s with locations := s.locations.filter (fun r => r.id != loc_id) }

/-- Does any assignment reference this unit?  (`incident_units.unit_id`
carries a foreign key to `units(id)` with no cascade action.) -/
def unitReferenced (s : DBState) (unit_id : Nat) : Bool :=
  s.incident_units.any (fun a => a.unit_id == unit_id)

/-- `DB.delete_unit`: `DELETE FROM units WHERE id=?`; raises on a referencing
`incident_units` row, as for `delete_location`. -/
def delete_unit (s : DBState) (unit_id : Nat) : Except String DBState :=
  if unitReferenced s unit_id then Except.error "FOREIGN KEY constraint failed"
  else Except.ok { s with units := s.units.filter (fun r => r.id != unit_id) }

/-- `DB.delete_incident`: `DELETE FROM incidents WHERE id=?`.  The foreign
keys of `incident_units` and `notes` are declared `ON DELETE CASCADE` and
`PRAGMA foreign_keys = ON`, so referencing rows are removed as well. -/
def delete_incident (s : DBState) (inc_id : Nat) : DBState :=
  { s with incidents := s.incidents.filter (fun r => r.id != inc_id),
           incident_units := s.incident_units.filter (fun a => a.incident_id != inc_id),
           notes := s.notes.filter (fun n => n.incident_id != inc_id) }

/-- `DB.set_cleared`: `UPDATE incidents SET is_cleared=?, cleared_at=? WHERE id=?`
with values `1 if cleared else 0` and `cleared_at or ""` (Python `or`: `None`
and the empty string both become `""`, which `Option.getD ""` reproduces). -/
def set_cleared (s : DBState) (inc_id : Nat) (cleared : Bool) (cleared_at : Option String) : DBState :=
  { s with incidents := s.incidents.map (fun r =>
      if r.id == inc_id then
        { r with is_cleared := if cleared then 1 else 0, cleared_at := cleared_at.getD "" }
      else r) }

/-- Foreign-key check for `incidents.location_id`: NULL or an existing location id. -/
def fkLocOk (s : DBState) (loc : Option Nat) : Bool :=
  match loc with
  | none => true
  | some l => s.locations.any (fun r => r.id == l)

/-- Foreign-key check for `incident_units.unit_id`. -/
def unitExists (s : DBState) (u : Nat) : Bool := s.units.any (fun r => r.id == u)

/-- Foreign-key check for `incident_units.incident_id` / `notes.incident_id`. -/
def incidentExists (s : DBState) (i : Nat) : Bool := s.incidents.any (fun r => r.id == i)

/-- One `INSERT INTO incident_units(incident_id, unit_id, role)` (no constraint
checks; callers check foreign keys first). -/
def addAssign (s : DBState) (inc_id unit_id : Nat) (role : String) : DBState :=
  { s with incident_units :=
      s.incident_units ++ [⟨nextId (s.incident_units.map (fun a => a.id)), inc_id, unit_id, role⟩] }

/-- The `if primary_unit_id:` insert of `create_incident` / `update_incident`.
Python truthiness skips the insert for `None` and for `0`; an actual insert
is checked against both foreign keys. -/
def insertPrimary (s : DBState) (inc_id : Nat) (primary : Option Nat) : Except String DBState :=
  match primary with
  | none => Except.ok s
  | some p =>
      if p == 0 then Except.ok s
      else if incidentExists s inc_id && unitExists s p then
        Except.ok (addAssign s inc_id p "primary")
      else Except.error "FOREIGN KEY constraint failed"

/-- The `for uid in backup_unit_ids:` insert loop of `create_incident` /
`update_incident`; each insert is checked against both foreign keys. -/
def insertBackups (s : DBState) (inc_id : Nat) : List Nat → Except String DBState
  | [] => Except.ok s
  | u :: rest =>
      if incidentExists s inc_id && unitExists s u then
        insertBackups (addAssign s inc_id u "backup") inc_id rest
      else Except.error "FOREIGN KEY constraint failed"

/-- `DB.update_incident`: one `UPDATE incidents SET ... WHERE id=?` (foreign-key
checked when a row is actually updated), then
`DELETE FROM incident_units WHERE incident_id=?`, then the primary/backup
reinserts. -/
def update_incident (s : DBState) (inc_id : Nat) (location_id : Option Nat)
    (type_name reported_at dispatched_at arrived_at cleared_at disposition : String)
    (is_cleared : Nat) (primary_unit_id : Option Nat) (backup_unit_ids : List Nat) :
    Except String DBState :=
  if s.incidents.any (fun r => r.id == inc_id) && !(fkLocOk s location_id) then
    Except.error "FOREIGN KEY constraint failed"
  else
    let s1 := { s with incidents := s.incidents.map (fun (r : IncidentRow) =>
      if r.id == inc_id then
        { r with location_id := location_id, type := type_name, reported_at := reported_at,
                 dispatched_at := dispatched_at, arrived_at := arrived_at,
                 cleared_at := cleared_at, disposition := disposition, is_cleared := is_cleared }
      else r) }
    let s2 := { s1 with incident_units := s1.incident_units.filter (fun a => a.incident_id != inc_id) }
    match insertPrimary s2 inc_id primary_unit_id with
    | Except.error e => Except.error e
    | Except.ok s3 => insertBackups s3 inc_id backup_unit_ids

/-- `DB.create_incident`: `INSERT INTO incidents(...)` (foreign-key checked on
`location_id`), then the primary/backup inserts; returns the new id
(`cur.lastrowid`). -/
def create_incident (s : DBState) (location_id : Option Nat)
    (type_name reported_at dispatched_at arrived_at cleared_at disposition : String)
    (is_cleared : Nat) (primary_unit_id : Option Nat) (backup_unit_ids : List Nat) :
    Except String (DBState × Nat) :=
  if fkLocOk s location_id then
    let nid := nextId (s.incidents.map (fun r => r.id))
    let s1 := { s with incidents := s.incidents ++
      [⟨nid, location_id, type_name, reported_at, dispatched_at, arrived_at, cleared_at, disposition, is_cleared⟩] }
    match insertPrimary s1 nid primary_unit_id with
    | Except.error e => Except.error e
    | Except.ok s2 =>
        match insertBackups s2 nid backup_unit_ids with
        | Except.error e => Except.error e
        | Except.ok s3 => Except.ok (s3, nid)
  else Except.error "FOREIGN KEY constraint failed"

/-- `DB.get_incident_assignments`: `fetchone()` of the primary-role row's
unit id (rows are scanned in rowid order), and the list of backup-role unit
ids in rowid order. -/
def get_incident_assignments (s : DBState) (inc_id : Nat) : Option Nat × List Nat :=
  ((s.incident_units.find? (fun a => a.incident_id == inc_id && a.role == "primary")).map (fun a => a.unit_id),
   (s.incident_units.filter (fun a => a.incident_id == inc_id && a.role == "backup")).map (fun a => a.unit_id))

/-- One result row of `DB.fetch_board`: `i.*`, the joined location name, and
the two `GROUP_CONCAT` aggregates (NULL when the group has no such unit). -/
structure BoardRow where
  id : Nat
  location_id : Option Nat
  type : String
  reported_at : String
  dispatched_at : String
  arrived_at : String
  cleared_at : String
  disposition : String
  is_cleared : Nat
  location_name : Option String
  primary_units : Option String
  backup_units : Option String
deriving DecidableEq

/-- SQLite `date()` applied to the app's fixed-format strings
(`"YYYY-MM-DD HH:MM"` or `"YYYY-MM-DD"`): the 10-character date portion. -/
def dateOf (t : String) : String := t.take 10

/-- The dynamically built WHERE clause of `DB.fetch_board`.  Each branch is
guarded by Python truthiness (`if loc_filter:` etc.), so a filter value of
`None` — and likewise `0` for the location and `""` for the text filters —
adds no condition. -/
def matchesFilters (lf : Option Nat) (tf sd ed : Option String) (r : IncidentRow) : Bool :=
  (match lf with
   | none => true
   | some l => if l == 0 then true else r.location_id == some l) &&
  (match tf with
   | none => true
   | some t => if t == "" then true else r.type == t) &&
  (match sd with
   | none => true
   | some d => if d == "" then true else strLeb (dateOf d) (dateOf r.reported_at)) &&
  (match ed with
   | none => true
   | some d => if d == "" then true else strLeb (dateOf r.reported_at) (dateOf d))

/-- The unit names of the given role assigned to the given incident, in
`incident_units` rowid order (the order the LEFT JOINs produce the group's
rows in); an assignment whose unit row is missing joins to NULL and is
skipped by `GROUP_CONCAT`. -/
def roleNames (s : DBState) (inc_id : Nat) (role : String) : List String :=
  (s.incident_units.filter (fun a => a.incident_id == inc_id && a.role == role)).filterMap
    (fun a => (s.units.find? (fun u => u.id == a.unit_id)).map (fun u => u.name))

/-- `GROUP_CONCAT` with the default `,` separator: NULL on an empty group. -/
def groupConcat (l : List String) : Option String :=
  match l with
  | [] => none
  | _ => some (String.intercalate "," l)

/-- The row `GROUP BY i.id` produces for one incident. -/
def rowOf (s : DBState) (r : IncidentRow) : BoardRow :=
  { id := r.id, location_id := r.location_id, type := r.type, reported_at := r.reported_at,
    dispatched_at := r.dispatched_at, arrived_at := r.arrived_at, cleared_at := r.cleared_at,
    disposition := r.disposition, is_cleared := r.is_cleared,
    location_name := r.location_id.bind (fun l =>
      (s.locations.find? (fun lr => lr.id == l)).map (fun lr => lr.name)),
    primary_units := groupConcat (roleNames s r.id "primary"),
    backup_units := groupConcat (roleNames s r.id "backup") }

/-- `ORDER BY i.is_cleared ASC, i.reported_at DESC` as a (total, transitive)
relation on board rows. -/
def boardRel (a b : BoardRow) : Prop :=
  a.is_cleared < b.is_cleared ∨
    (a.is_cleared = b.is_cleared ∧ strLeb b.reported_at a.reported_at = true)

instance : DecidableRel boardRel := fun a b => by
  unfold boardRel; exact inferInstance

/-- `DB.fetch_board`: filter the incidents by the dynamic WHERE clause, group
by incident id into board rows, and sort by
`ORDER BY i.is_cleared ASC, i.reported_at DESC`. -/
def fetch_board (s : DBState) (lf : Option Nat) (tf sd ed : Option String) : List BoardRow :=
  List.insertionSort boardRel ((s.incidents.filter (matchesFilters lf tf sd ed)).map (rowOf s))

/-- The type-name mapping of `IncidentForm.save`:
`t_name = self.type_var.get().strip() or "Other"` — a blank (empty after
stripping) type falls back to `"Other"`. -/
def save_type_name (raw : String) : String :=
  let t := pyStrip raw
  if t == "" then "Other" else t

/-- The save path of `IncidentForm.save` for a new incident: the form's raw
field strings are stripped, the type falls back to `"Other"` when blank, a
blank reported time falls back to the current clock (`now_dt()`, passed here
as `now`), the cleared flag is set when the checkbox is ticked or a cleared
time was entered, and `DB.create_incident` is called.  (The form's
name-to-id combobox lookups are abstracted: `location_id`, `primary_unit_id`
and `backup_unit_ids` are the ids those lookups produce.) -/
def form_create (s : DBState) (location_id : Option Nat)
    (raw_type raw_reported raw_dispatched raw_arrived raw_cleared raw_disposition : String)
    (cleared_box : Bool) (now : String)
    (primary_unit_id : Option Nat) (backup_unit_ids : List Nat) :
    Except String (DBState × Nat) :=
  let t_name := save_type_name raw_type
  let reported := if pyStrip raw_reported == "" then now else pyStrip raw_reported
  let clr := pyStrip raw_cleared
  let cleared_flag : Nat := if cleared_box || !(clr == "") then 1 else 0
  create_incident s location_id t_name reported (pyStrip raw_dispatched) (pyStrip raw_arrived)
    clr (pyStrip raw_disposition) cleared_flag primary_unit_id backup_unit_ids

end IncidentDesk

deriving instance DecidableEq for Except

namespace IncidentDesk

/-- Example database for the board-query witnesses: three incidents of the
spec's ordering example (A active 2025-01-02, B cleared 2025-01-05, C active
2025-01-01) plus one reported late on 2025-06-01 for the date-filter
witness. -/
def exBoardDB : DBState :=
  { emptyDB with incidents :=
      [⟨1, none, "Crash", "2025-01-02 10:00", "", "", "", "", 0⟩,
       ⟨2, none, "Crash", "2025-01-05 10:00", "", "", "2025-01-05 11:00", "", 1⟩,
       ⟨3, none, "Fire", "2025-01-01 10:00", "", "", "", "", 0⟩,
       ⟨4, none, "Debris", "2025-06-01 23:50", "", "", "", "", 0⟩] }

/-- Example database with one referenced location/unit (id 1) and one
unreferenced location/unit (id 2). -/
def exRefDB : DBState :=
  { emptyDB with
      locations := [⟨1, "Pit"⟩, ⟨2, "T5"⟩],
      units := [⟨1, "R1", "Safety"⟩, ⟨2, "M1", "Medical"⟩],
      incidents := [⟨1, some 1, "Crash", "2025-01-02 10:00", "", "", "", "", 0⟩],
      incident_units := [⟨1, 1, 1, "primary"⟩] }

/-- Example database with picklist rows in all three tables. -/
def exPickDB : DBState :=
  { emptyDB with
      locations := [⟨1, "Paddock"⟩],
      units := [⟨1, "Truck", "Fire"⟩],
      incident_types := [⟨1, "Crash"⟩] }

/-- Example database with a cleared incident carrying a cleared timestamp. -/
def exClearDB : DBState :=
  { emptyDB with incidents :=
      [⟨1, none, "Crash", "2025-01-02 10:00", "", "", "2025-01-02 12:00", "", 1⟩] }

/-- Example database for the update/assignment witness: three units and one
incident that already has a primary and a backup assignment. -/
def exAssignDB : DBState :=
  { emptyDB with
      units := [⟨1, "R1", "Safety"⟩, ⟨2, "M1", "Medical"⟩, ⟨3, "F1", "Fire"⟩],
      incidents := [⟨1, none, "Crash", "2025-01-02 10:00", "", "", "", "", 0⟩],
      incident_units := [⟨1, 1, 1, "primary"⟩, ⟨2, 1, 2, "backup"⟩] }

/-! ## Helper lemmas -/

theorem charLeb_cons_iff (x y : Char) (xs ys : List Char) :
    charLeb (x :: xs) (y :: ys) = true ↔
      x.toNat < y.toNat ∨ (x.toNat = y.toNat ∧ charLeb xs ys = true) := by
  simp only [charLeb]
  split_ifs with h1 h2
  · simp [h1]
  · constructor
    · intro h; cases h
    · rintro (h | ⟨h, _⟩)
      · exact absurd h h1
      · omega
  · have hx : x.toNat = y.toNat := by omega
    simp [hx]

theorem charLeb_total (a b : List Char) : charLeb a b = true ∨ charLeb b a = true := by
  induction a generalizing b with
  | nil => left; rfl
  | cons x xs ih =>
    cases b with
    | nil => right; rfl
    | cons y ys =>
      rcases Nat.lt_trichotomy x.toNat y.toNat with h | h | h
      · left; exact (charLeb_cons_iff _ _ _ _).mpr (Or.inl h)
      · rcases ih ys with hc | hc
        · left; exact (charLeb_cons_iff _ _ _ _).mpr (Or.inr ⟨h, hc⟩)
        · right; exact (charLeb_cons_iff _ _ _ _).mpr (Or.inr ⟨h.symm, hc⟩)
      · right; exact (charLeb_cons_iff _ _ _ _).mpr (Or.inl h)

theorem charLeb_trans (a b c : List Char) (hab : charLeb a b = true) (hbc : charLeb b c = true) :
    charLeb a c = true := by
  induction a generalizing b c with
  | nil => rfl
  | cons x xs ih =>
    cases b with
    | nil => exact absurd hab (by simp [charLeb])
    | cons y ys =>
      cases c with
      | nil => exact absurd hbc (by simp [charLeb])
      | cons z zs =>
        rcases (charLeb_cons_iff _ _ _ _).mp hab with h1 | ⟨h1, h1'⟩ <;>
          rcases (charLeb_cons_iff _ _ _ _).mp hbc with h2 | ⟨h2, h2'⟩
        · exact (charLeb_cons_iff _ _ _ _).mpr (Or.inl (by omega))
        · exact (charLeb_cons_iff _ _ _ _).mpr (Or.inl (by omega))
        · exact (charLeb_cons_iff _ _ _ _).mpr (Or.inl (by omega))
        · exact (charLeb_cons_iff _ _ _ _).mpr (Or.inr ⟨by omega, ih ys zs h1' h2'⟩)

instance : IsTotal BoardRow boardRel := by
  constructor
  intro a b
  unfold boardRel
  rcases Nat.lt_trichotomy a.is_cleared b.is_cleared with h | h | h
  · exact Or.inl (Or.inl h)
  · rcases charLeb_total b.reported_at.data a.reported_at.data with hc | hc
    · exact Or.inl (Or.inr ⟨h, hc⟩)
    · exact Or.inr (Or.inr ⟨h.symm, hc⟩)
  · exact Or.inr (Or.inl h)

instance : IsTrans BoardRow boardRel := by
  constructor
  intro a b c hab hbc
  unfold boardRel at *
  rcases hab with h1 | ⟨h1, h1'⟩ <;> rcases hbc with h2 | ⟨h2, h2'⟩
  · exact Or.inl (Nat.lt_trans h1 h2)
  · exact Or.inl (by omega)
  · exact Or.inl (by omega)
  · exact Or.inr ⟨h1.trans h2, charLeb_trans _ _ _ h2' h1'⟩

theorem find?_append_nomatch {α : Type} (l : List α) (x : α) (p : α → Bool) (hx : p x = false) :
    (l ++ [x]).find? p = l.find? p := by
  induction l with
  | nil => simp [List.find?, hx]
  | cons a as ih =>
    by_cases h : p a <;> simp [List.find?, h, ih]

theorem find?_append_allfalse {α : Type} (l : List α) (x : α) (p : α → Bool)
    (h : ∀ y ∈ l, p y = false) :
    (l ++ [x]).find? p = if p x then some x else none := by
  induction l with
  | nil => by_cases hx : p x <;> simp [List.find?, hx]
  | cons a as ih =>
    have ha := h a (by simp)
    simp only [List.cons_append, List.find?, ha]
    exact ih (fun y hy => h y (by simp [hy]))

theorem insertPrimary_incidents (s : DBState) (inc_id : Nat) (primary : Option Nat)
    (s' : DBState) (h : insertPrimary s inc_id primary = Except.ok s') :
    s'.incidents = s.incidents := by
  cases primary with
  | none =>
      injection h with h
      rw [← h]
  | some p =>
      simp only [insertPrimary] at h
      by_cases h0 : (p == 0) = true
      · rw [if_pos h0] at h
        injection h with h
        rw [← h]
      · rw [if_neg h0] at h
        by_cases hc : (incidentExists s inc_id && unitExists s p) = true
        · rw [if_pos hc] at h
          injection h with h
          rw [← h]
          rfl
        · rw [if_neg hc] at h
          cases h

theorem insertBackups_incidents (us : List Nat) (s : DBState) (inc_id : Nat)
    (s' : DBState) (h : insertBackups s inc_id us = Except.ok s') :
    s'.incidents = s.incidents := by
  induction us generalizing s with
  | nil =>
      injection h with h
      rw [← h]
  | cons u rest ih =>
      simp only [insertBackups] at h
      by_cases hc : (incidentExists s inc_id && unitExists s u) = true
      · rw [if_pos hc] at h
        rw [ih (addAssign s inc_id u "backup") h]
        rfl
      · rw [if_neg hc] at h
        cases h

theorem insertBackups_spec (us : List Nat) (s : DBState) (inc_id : Nat)
    (hinc : incidentExists s inc_id = true)
    (hb : ∀ u ∈ us, unitExists s u = true) :
    ∃ s', insertBackups s inc_id us = Except.ok s' ∧
      (s'.incident_units.find? (fun a => a.incident_id == inc_id && a.role == "primary") =
        s.incident_units.find? (fun a => a.incident_id == inc_id && a.role == "primary")) ∧
      ((s'.incident_units.filter (fun a => a.incident_id == inc_id && a.role == "backup")).map
          (fun a => a.unit_id) =
        (s.incident_units.filter (fun a => a.incident_id == inc_id && a.role == "backup")).map
          (fun a => a.unit_id) ++ us) := by
  induction us generalizing s with
  | nil => exact ⟨s, rfl, rfl, by simp⟩
  | cons u rest ih =>
      have hcond : (incidentExists s inc_id && unitExists s u) = true := by
        simp [hinc, hb u (List.mem_cons_self u rest)]
      have hinc' : incidentExists (addAssign s inc_id u "backup") inc_id = true := hinc
      have hb' : ∀ v ∈ rest, unitExists (addAssign s inc_id u "backup") v = true :=
        fun v hv => hb v (List.mem_cons_of_mem u hv)
      obtain ⟨s', hok, hfind, hfilt⟩ := ih (addAssign s inc_id u "backup") hinc' hb'
      refine ⟨s', ?_, ?_, ?_⟩
      · simp only [insertBackups]
        rw [if_pos hcond]
        exact hok
      · rw [hfind]
        exact find?_append_nomatch _ _ _ (by simp)
      · rw [hfilt]
        have hstep : (((addAssign s inc_id u "backup").incident_units).filter
              (fun a => a.incident_id == inc_id && a.role == "backup")).map (fun a => a.unit_id) =
            ((s.incident_units.filter (fun a => a.incident_id == inc_id && a.role == "backup")).map
              (fun a => a.unit_id)) ++ [u] := by
          simp [addAssign, List.filter_append]
        rw [hstep, List.append_assoc]
        rfl

/-- After all rows of an incident have been removed, running the
primary/backup reinsertion sequence of `update_incident` yields exactly the
supplied assignment set. -/
theorem assignments_after_reinsert (s2 : DBState) (inc_id : Nat) (primary : Option Nat)
    (backups : List Nat)
    (hnone : ∀ a ∈ s2.incident_units, (a.incident_id == inc_id) = false)
    (hinc2 : incidentExists s2 inc_id = true)
    (hp2 : ∀ p, primary = some p → p ≠ 0 ∧ unitExists s2 p = true)
    (hb2 : ∀ u ∈ backups, unitExists s2 u = true) :
    ∃ s', (match insertPrimary s2 inc_id primary with
            | Except.error e => Except.error e
            | Except.ok s3 => insertBackups s3 inc_id backups) = Except.ok s' ∧
      get_incident_assignments s' inc_id = (primary, backups) := by
  have hfind2 : s2.incident_units.find?
      (fun a => a.incident_id == inc_id && a.role == "primary") = none :=
    List.find?_eq_none.mpr (fun x hx => by simp [hnone x hx])
  have hfilt2 : s2.incident_units.filter
      (fun a => a.incident_id == inc_id && a.role == "backup") = [] :=
    List.filter_eq_nil_iff.mpr (fun x hx => by simp [hnone x hx])
  cases primary with
  | none =>
      obtain ⟨s', hok, hfind, hfilt⟩ := insertBackups_spec backups s2 inc_id hinc2 hb2
      refine ⟨s', hok, ?_⟩
      unfold get_incident_assignments
      rw [hfind, hfind2, hfilt, hfilt2]
      simp
  | some p =>
      obtain ⟨hp0, hpu⟩ := hp2 p rfl
      have h0 : (p == 0) = false := by simpa using hp0
      have hip : insertPrimary s2 inc_id (some p) =
          Except.ok (addAssign s2 inc_id p "primary") := by
        simp [insertPrimary, h0, hinc2, hpu]
      have hinc3 : incidentExists (addAssign s2 inc_id p "primary") inc_id = true := hinc2
      have hb3 : ∀ u ∈ backups, unitExists (addAssign s2 inc_id p "primary") u = true := hb2
      obtain ⟨s', hok, hfind, hfilt⟩ :=
        insertBackups_spec backups (addAssign s2 inc_id p "primary") inc_id hinc3 hb3
      refine ⟨s', ?_, ?_⟩
      · rw [hip]
        exact hok
      · unfold get_incident_assignments
        rw [hfind, hfilt]
        have hfr : (addAssign s2 inc_id p "primary").incident_units.find?
            (fun a => a.incident_id == inc_id && a.role == "primary") =
            some ⟨nextId (s2.incident_units.map (fun a => a.id)), inc_id, p, "primary"⟩ := by
          show (s2.incident_units ++ [_]).find? _ = _
          rw [find?_append_allfalse _ _ _ (fun y hy => by simp [hnone y hy])]
          simp
        have hfl : (addAssign s2 inc_id p "primary").incident_units.filter
            (fun a => a.incident_id == inc_id && a.role == "backup") = [] := by
          show (s2.incident_units ++ [_]).filter _ = []
          rw [List.filter_append, hfilt2]
          simp
        rw [hfr, hfl]
        simp

/-! ## Claims -/

/-- Claim C3: for an incident present in the store, `update_incident` followed
by `get_incident_assignments` returns exactly the primary/backup set passed to
the update, regardless of the assignments that existed before (full replace).
The hypotheses state that the referenced rows exist (unit ids in the store's
tables are the positive ids SQLite assigns, and foreign keys are enforced):
the incident exists, the location argument is NULL or an existing location,
and the primary/backup unit ids are nonzero existing units. -/
theorem claim_C3_update_replaces_assignments (s : DBState) (inc_id : Nat)
    (location_id : Option Nat)
    (type_name reported_at dispatched_at arrived_at cleared_at disposition : String)
    (is_cleared : Nat) (primary_unit_id : Option Nat) (backup_unit_ids : List Nat)
    (hinc : incidentExists s inc_id = true)
    (hloc : fkLocOk s location_id = true)
    (hp : ∀ p, primary_unit_id = some p → p ≠ 0 ∧ unitExists s p = true)
    (hb : ∀ u ∈ backup_unit_ids, unitExists s u = true) :
    ∃ s', update_incident s inc_id location_id type_name reported_at dispatched_at arrived_at
        cleared_at disposition is_cleared primary_unit_id backup_unit_ids = Except.ok s' ∧
      get_incident_assignments s' inc_id = (primary_unit_id, backup_unit_ids) := by
  have hA : ∀ a ∈ s.incident_units.filter (fun a => a.incident_id != inc_id),
      (a.incident_id == inc_id) = false := by
    intro a ha
    have := (List.mem_filter.mp ha).2
    simpa using this
  have hB : (s.incidents.map (fun r =>
      if r.id == inc_id then
        { r with location_id := location_id, type := type_name, reported_at := reported_at,
                 dispatched_at := dispatched_at, arrived_at := arrived_at,
                 cleared_at := cleared_at, disposition := disposition, is_cleared := is_cleared }
      else r)).any (fun r => r.id == inc_id) = true := by
    rw [List.any_map]
    have hfun : ((fun (r : IncidentRow) => r.id == inc_id) ∘ (fun r =>
        if r.id == inc_id then
          { r with location_id := location_id, type := type_name, reported_at := reported_at,
                   dispatched_at := dispatched_at, arrived_at := arrived_at,
                   cleared_at := cleared_at, disposition := disposition,
                   is_cleared := is_cleared }
        else r)) = (fun (r : IncidentRow) => r.id == inc_id) := by
      funext r
      by_cases h : (r.id == inc_id) = true <;> simp [Function.comp, h]
    rw [hfun]
    exact hinc
  obtain ⟨s', hok, hget⟩ := assignments_after_reinsert
    { s with
        incidents := s.incidents.map (fun r =>
          if r.id == inc_id then
            { r with location_id := location_id, type := type_name, reported_at := reported_at,
                     dispatched_at := dispatched_at, arrived_at := arrived_at,
                     cleared_at := cleared_at, disposition := disposition,
                     is_cleared := is_cleared }
          else r),
        incident_units := s.incident_units.filter (fun a => a.incident_id != inc_id) }
    inc_id primary_unit_id backup_unit_ids hA hB hp hb
  refine ⟨s', ?_, hget⟩
  unfold update_incident
  rw [hloc]
  simp only [Bool.not_true, Bool.and_false]
  rw [if_neg Bool.false_ne_true]
  exact hok

/-- Claim C3 witness: on `exAssignDB` (incident 1 already has primary unit 1
and backup unit 2), an update with primary unit 2 and backups [3, 1] yields
exactly assignments (some 2, [3, 1]); a second update with no primary and no
backups leaves zero assignments. -/
theorem claim_C3_update_replaces_assignments_witness :
    (∃ s', update_incident exAssignDB 1 none "Crash" "2025-01-02 10:00" "" "" "" "" 0
        (some 2) [3, 1] = Except.ok s' ∧
      get_incident_assignments s' 1 = (some 2, [3, 1])) ∧
    (∃ s', update_incident exAssignDB 1 none "Crash" "2025-01-02 10:00" "" "" "" "" 0
        none [] = Except.ok s' ∧
      get_incident_assignments s' 1 = (none, [])) :=
  ⟨claim_C3_update_replaces_assignments exAssignDB 1 none "Crash" "2025-01-02 10:00" "" "" "" ""
      0 (some 2) [3, 1] (by decide) (by decide)
      (fun p hp => by cases hp; exact ⟨by decide, by decide⟩) (by decide),
   claim_C3_update_replaces_assignments exAssignDB 1 none "Crash" "2025-01-02 10:00" "" "" "" ""
      0 none [] (by decide) (by decide)
      (fun p hp => by cases hp) (by decide)⟩

/-- Claim C8: an incident created through the form's save path with a blank
(empty or whitespace-only) type name is stored with type text `"Other"`. -/
theorem claim_C8_blank_type_other (s : DBState) (location_id : Option Nat)
    (raw_type raw_reported raw_dispatched raw_arrived raw_cleared raw_disposition : String)
    (cleared_box : Bool) (now : String)
    (primary_unit_id : Option Nat) (backup_unit_ids : List Nat)
    (hblank : pyStrip raw_type = "")
    (s' : DBState) (nid : Nat)
    (hok : form_create s location_id raw_type raw_reported raw_dispatched raw_arrived
        raw_cleared raw_disposition cleared_box now primary_unit_id backup_unit_ids =
      Except.ok (s', nid)) :
    ∃ r ∈ s'.incidents, r.id = nid ∧ r.type = "Other" := by
  have hst : save_type_name raw_type = "Other" := by
    simp [save_type_name, hblank]
  simp only [form_create, create_incident] at hok
  by_cases hfk : fkLocOk s location_id = true
  · rw [if_pos hfk] at hok
    split at hok
    · simp at hok
    · rename_i s2 hip
      split at hok
      · simp at hok
      · rename_i s3 hib
        injection hok with hok
        obtain ⟨hs3, hnid⟩ := Prod.mk.inj hok
        have h2 := insertPrimary_incidents _ _ _ _ hip
        have h3 := insertBackups_incidents _ _ _ _ hib
        refine ⟨⟨nid, location_id, save_type_name raw_type,
          (if (pyStrip raw_reported == "") = true then now else pyStrip raw_reported),
          pyStrip raw_dispatched, pyStrip raw_arrived, pyStrip raw_cleared,
          pyStrip raw_disposition,
          (if (cleared_box || !(pyStrip raw_cleared == "")) = true then 1 else 0)⟩,
          ?_, rfl, hst⟩
        rw [← hs3, h3, h2, ← hnid]
        exact List.mem_append_right _ (by simp)
  · rw [if_neg hfk] at hok
    cases hok

/-- Claim C8 witness: saving a new incident with the whitespace-only type
`"  "` on a fresh database stores it with type `"Other"`. -/
theorem claim_C8_blank_type_other_witness :
    ∃ r ∈ ({ emptyDB with incidents :=
        [⟨1, none, "Other", "2025-06-01 10:00", "", "", "", "", 0⟩] } : DBState).incidents,
      r.id = 1 ∧ r.type = "Other" :=
  claim_C8_blank_type_other emptyDB none "  " "2025-06-01 10:00" "" "" "" "" false
    "2025-06-01 11:00" none [] (by decide)
    { emptyDB with incidents := [⟨1, none, "Other", "2025-06-01 10:00", "", "", "", "", 0⟩] }
    1 (by decide)

/-- Claim C4: `delete_incident` removes the incident row and every assignment
and note row referencing it; rows of other incidents and the three picklist
tables are unchanged. -/
theorem claim_C4_delete_cascade (s : DBState) (inc_id : Nat) :
    ((delete_incident s inc_id).incidents.filter (fun r => r.id == inc_id) = [] ∧
     (delete_incident s inc_id).incident_units.filter (fun a => a.incident_id == inc_id) = [] ∧
     (delete_incident s inc_id).notes.filter (fun n => n.incident_id == inc_id) = []) ∧
    ((delete_incident s inc_id).incidents.filter (fun r => r.id != inc_id) =
        s.incidents.filter (fun r => r.id != inc_id) ∧
     (delete_incident s inc_id).incident_units.filter (fun a => a.incident_id != inc_id) =
        s.incident_units.filter (fun a => a.incident_id != inc_id) ∧
     (delete_incident s inc_id).notes.filter (fun n => n.incident_id != inc_id) =
        s.notes.filter (fun n => n.incident_id != inc_id)) ∧
    ((delete_incident s inc_id).locations = s.locations ∧
     (delete_incident s inc_id).units = s.units ∧
     (delete_incident s inc_id).incident_types = s.incident_types) := by
  unfold delete_incident
  refine ⟨⟨?_, ?_, ?_⟩, ⟨?_, ?_, ?_⟩, rfl, rfl, rfl⟩
  · simp only [List.filter_eq_nil_iff]
    intro a ha
    simp_all [List.mem_filter]
  · simp only [List.filter_eq_nil_iff]
    intro a ha
    simp_all [List.mem_filter]
  · simp only [List.filter_eq_nil_iff]
    intro a ha
    simp_all [List.mem_filter]
  · simp [List.filter_filter]
  · simp [List.filter_filter]
  · simp [List.filter_filter]

/-- Claim C5: `set_cleared` changes only the `is_cleared` and `cleared_at`
fields of the targeted incident: the other tables are unchanged, every other
incident row is unchanged, and every field of the targeted row except the two
cleared fields keeps its value. -/
theorem claim_C5_set_cleared_frame (s : DBState) (inc_id : Nat) (cleared : Bool)
    (cleared_at : Option String) :
    (set_cleared s inc_id cleared cleared_at).locations = s.locations ∧
    (set_cleared s inc_id cleared cleared_at).units = s.units ∧
    (set_cleared s inc_id cleared cleared_at).incident_types = s.incident_types ∧
    (set_cleared s inc_id cleared cleared_at).incident_units = s.incident_units ∧
    (set_cleared s inc_id cleared cleared_at).notes = s.notes ∧
    List.Forall₂ (fun r r' : IncidentRow =>
        r'.id = r.id ∧ r'.location_id = r.location_id ∧ r'.type = r.type ∧
        r'.reported_at = r.reported_at ∧ r'.dispatched_at = r.dispatched_at ∧
        r'.arrived_at = r.arrived_at ∧ r'.disposition = r.disposition ∧
        (r.id ≠ inc_id → r' = r))
      s.incidents (set_cleared s inc_id cleared cleared_at).incidents := by
  refine ⟨rfl, rfl, rfl, rfl, rfl, ?_⟩
  show List.Forall₂ _ s.incidents (s.incidents.map _)
  rw [List.forall₂_map_right_iff, List.forall₂_same]
  intro r _
  by_cases h : r.id == inc_id
  · have hid : r.id = inc_id := by simpa using h
    simp [h, hid]
  · simp [h]

/-- Claim C6: for each picklist store, `add` with a name that already exists
in the table (names written through this layer are stripped, hence the
`pyStrip name = name` hypothesis) is a silent no-op: it returns no error and
leaves the whole database state unchanged. -/
theorem claim_C6_duplicate_add_noop (s : DBState) (name : String)
    (hstr : pyStrip name = name) :
    ((∃ r ∈ s.locations, r.name = name) → add_location s name = s) ∧
    (∀ category, (∃ r ∈ s.units, r.name = name) → add_unit s name category = s) ∧
    ((∃ r ∈ s.incident_types, r.name = name) → add_incident_type s name = s) := by
  refine ⟨?_, ?_, ?_⟩
  · rintro ⟨r, hr, hrn⟩
    have hany : s.locations.any (fun r => r.name == pyStrip name) = true :=
      List.any_eq_true.mpr ⟨r, hr, by simp [hrn, hstr]⟩
    simp [add_location, hany]
  · rintro category ⟨r, hr, hrn⟩
    have hany : s.units.any (fun r => r.name == pyStrip name) = true :=
      List.any_eq_true.mpr ⟨r, hr, by simp [hrn, hstr]⟩
    simp [add_unit, hany]
  · rintro ⟨r, hr, hrn⟩
    have hany : s.incident_types.any (fun r => r.name == pyStrip name) = true :=
      List.any_eq_true.mpr ⟨r, hr, by simp [hrn, hstr]⟩
    simp [add_incident_type, hany]

/-- Claim C6 witness: adding the already-present names to `exPickDB` leaves it
unchanged in all three stores. -/
theorem claim_C6_duplicate_add_noop_witness :
    add_location exPickDB "Paddock" = exPickDB ∧
    add_unit exPickDB "Truck" "anything" = exPickDB ∧
    add_incident_type exPickDB "Crash" = exPickDB :=
  ⟨(claim_C6_duplicate_add_noop exPickDB "Paddock" (by decide)).1
      ⟨⟨1, "Paddock"⟩, by decide, rfl⟩,
   (claim_C6_duplicate_add_noop exPickDB "Truck" (by decide)).2.1 "anything"
      ⟨⟨1, "Truck", "Fire"⟩, by decide, rfl⟩,
   (claim_C6_duplicate_add_noop exPickDB "Crash" (by decide)).2.2
      ⟨⟨1, "Crash"⟩, by decide, rfl⟩⟩

/-- Claim C7 counterexample: with `PRAGMA foreign_keys = ON` and no ON DELETE
action on `incidents.location_id` / `incident_units.unit_id`, deleting the
referenced location 1 (or unit 1) of `exRefDB` raises an integrity error
instead of succeeding and leaving a dangling reference. -/
theorem claim_C7_counterexample :
    delete_location exRefDB 1 = Except.error "FOREIGN KEY constraint failed" ∧
    delete_unit exRefDB 1 = Except.error "FOREIGN KEY constraint failed" := by
  constructor <;> rfl

/-- Claim C7 (amended): `delete` on a picklist row removes the row and leaves
every other table untouched when nothing references it; when an Incident
(for locations) or IncidentAssignment (for units) row references it, the
delete raises a foreign-key constraint error and removes nothing. -/
theorem claim_C7_amended_delete_checks (s : DBState) (pid : Nat) :
    (locationReferenced s pid = false →
        delete_location s pid =
          Except.ok { s with locations := s.locations.filter (fun r => r.id != pid) }) ∧
    (locationReferenced s pid = true →
        delete_location s pid = Except.error "FOREIGN KEY constraint failed") ∧
    (unitReferenced s pid = false →
        delete_unit s pid =
          Except.ok { s with units := s.units.filter (fun r => r.id != pid) }) ∧
    (unitReferenced s pid = true →
        delete_unit s pid = Except.error "FOREIGN KEY constraint failed") := by
  refine ⟨?_, ?_, ?_, ?_⟩ <;> intro h <;> simp [delete_location, delete_unit, h]

/-- Claim C7 (amended) witness: on `exRefDB`, deleting the unreferenced
location/unit 2 succeeds and drops exactly that row; deleting the referenced
location/unit 1 errors. -/
theorem claim_C7_amended_delete_checks_witness :
    delete_location exRefDB 2 =
      Except.ok { exRefDB with locations := exRefDB.locations.filter (fun r => r.id != 2) } ∧
    delete_location exRefDB 1 = Except.error "FOREIGN KEY constraint failed" ∧
    delete_unit exRefDB 2 =
      Except.ok { exRefDB with units := exRefDB.units.filter (fun r => r.id != 2) } ∧
    delete_unit exRefDB 1 = Except.error "FOREIGN KEY constraint failed" :=
  ⟨(claim_C7_amended_delete_checks exRefDB 2).1 (by decide),
   (claim_C7_amended_delete_checks exRefDB 1).2.1 (by decide),
   (claim_C7_amended_delete_checks exRefDB 2).2.2.1 (by decide),
   (claim_C7_amended_delete_checks exRefDB 1).2.2.2 (by decide)⟩

/-- Claim C9 counterexample: `add_location` with the whitespace-only name
`" "` on a fresh database strips it to the empty string and inserts it — the
store does produce a row whose name is empty. -/
theorem claim_C9_counterexample :
    ∃ r ∈ (add_location emptyDB " ").locations, r.name = "" := by
  refine ⟨⟨1, ""⟩, ?_, rfl⟩
  decide

/-- Claim C9 (amended): picklist names are stored stripped, but non-emptiness
is not enforced: for each picklist store, calling `add` with an empty or
whitespace-only name on a table that has no empty-named row yet inserts a row
whose name is the empty string. -/
theorem claim_C9_amended_blank_add (s : DBState) (name : String)
    (hblank : pyStrip name = "") :
    ((¬ ∃ r ∈ s.locations, r.name = "") →
        ∃ r ∈ (add_location s name).locations, r.name = "") ∧
    (∀ category, (¬ ∃ r ∈ s.units, r.name = "") →
        ∃ r ∈ (add_unit s name category).units, r.name = "") ∧
    ((¬ ∃ r ∈ s.incident_types, r.name = "") →
        ∃ r ∈ (add_incident_type s name).incident_types, r.name = "") := by
  refine ⟨?_, ?_, ?_⟩
  · intro h
    have hany : s.locations.any (fun r => r.name == pyStrip name) = false := by
      rw [hblank]
      cases hq : s.locations.any (fun r => r.name == "") with
      | false => rfl
      | true =>
          rcases List.any_eq_true.mp hq with ⟨r, hr, hrn⟩
          exact absurd ⟨r, hr, by simpa using hrn⟩ h
    refine ⟨⟨nextId (s.locations.map (fun r => r.id)), pyStrip name⟩, ?_, hblank⟩
    simp [add_location, hany]
  · intro category h
    have hany : s.units.any (fun r => r.name == pyStrip name) = false := by
      rw [hblank]
      cases hq : s.units.any (fun r => r.name == "") with
      | false => rfl
      | true =>
          rcases List.any_eq_true.mp hq with ⟨r, hr, hrn⟩
          exact absurd ⟨r, hr, by simpa using hrn⟩ h
    refine ⟨⟨nextId (s.units.map (fun r => r.id)), pyStrip name, pyStrip category⟩, ?_, hblank⟩
    simp [add_unit, hany]
  · intro h
    have hany : s.incident_types.any (fun r => r.name == pyStrip name) = false := by
      rw [hblank]
      cases hq : s.incident_types.any (fun r => r.name == "") with
      | false => rfl
      | true =>
          rcases List.any_eq_true.mp hq with ⟨r, hr, hrn⟩
          exact absurd ⟨r, hr, by simpa using hrn⟩ h
    refine ⟨⟨nextId (s.incident_types.map (fun r => r.id)), pyStrip name⟩, ?_, hblank⟩
    simp [add_incident_type, hany]

/-- Claim C9 (amended) witness: on a fresh database, adding the whitespace-only
name `" "` yields an empty-named row in each of the three picklist stores. -/
theorem claim_C9_amended_blank_add_witness :
    (∃ r ∈ (add_location emptyDB " ").locations, r.name = "") ∧
    (∃ r ∈ (add_unit emptyDB " " "c").units, r.name = "") ∧
    (∃ r ∈ (add_incident_type emptyDB " ").incident_types, r.name = "") :=
  ⟨(claim_C9_amended_blank_add emptyDB " " (by decide)).1 (by decide),
   (claim_C9_amended_blank_add emptyDB " " (by decide)).2.1 "c" (by decide),
   (claim_C9_amended_blank_add emptyDB " " (by decide)).2.2 (by decide)⟩

/-- Claim C10: `set_cleared` called with the timestamp omitted (`None`, the
parameter default) stores `cleared_at or ""`, i.e. overwrites the targeted
incident's `cleared_at` with the empty string whatever the flag is. -/
theorem claim_C10_omitted_ts_blanks (s : DBState) (inc_id : Nat) (cleared : Bool) :
    ∀ r' ∈ (set_cleared s inc_id cleared none).incidents,
      r'.id = inc_id → r'.cleared_at = "" := by
  intro r' hr' hid
  have hr'' : r' ∈ s.incidents.map (fun r =>
      if r.id == inc_id then
        { r with is_cleared := if cleared then 1 else 0,
                 cleared_at := (none : Option String).getD "" }
      else r) := hr'
  rcases List.mem_map.mp hr'' with ⟨r, _, heq⟩
  by_cases h : r.id == inc_id
  · rw [if_pos h] at heq
    rw [← heq]
    rfl
  · rw [if_neg h] at heq
    rw [← heq] at hid
    exact absurd hid (by simpa using h)

/-- Claim C1: the rows of `fetch_board` are ordered with all non-cleared
incidents (`is_cleared = 0`) before all cleared ones (`is_cleared = 1`), and
within each of the two groups by `reported_at` descending (most recent
first), for every database state (the store only ever writes 0/1 into
`is_cleared`, hence the hypothesis) and every combination of filters. -/
theorem claim_C1_board_order (s : DBState) (lf : Option Nat) (tf sd ed : Option String)
    (h01 : ∀ r ∈ s.incidents, r.is_cleared = 0 ∨ r.is_cleared = 1) :
    (fetch_board s lf tf sd ed).Pairwise (fun a b =>
      (a.is_cleared = 0 ∧ b.is_cleared = 1) ∨
      (a.is_cleared = b.is_cleared ∧ strLeb b.reported_at a.reported_at = true)) := by
  have hs : (fetch_board s lf tf sd ed).Pairwise boardRel :=
    List.sorted_insertionSort boardRel _
  have hmem : ∀ b ∈ fetch_board s lf tf sd ed, b.is_cleared = 0 ∨ b.is_cleared = 1 := by
    intro b hb
    have hb' : b ∈ (s.incidents.filter (matchesFilters lf tf sd ed)).map (rowOf s) :=
      (List.perm_insertionSort boardRel _).mem_iff.mp hb
    rcases List.mem_map.mp hb' with ⟨r0, hr0, hbr⟩
    have hr0' := (List.mem_filter.mp hr0).1
    have h := h01 r0 hr0'
    rw [← hbr]
    simpa [rowOf] using h
  refine hs.imp_of_mem (fun {a b} ha hb hab => ?_)
  rcases hab with h | h
  · rcases hmem a ha with ha0 | ha0 <;> rcases hmem b hb with hb0 | hb0 <;>
      first
        | (left; exact ⟨ha0, hb0⟩)
        | (exfalso; omega)
  · exact Or.inr h

/-- Claim C1 witness: on the spec's example (A active 2025-01-02, B cleared
2025-01-05, C active 2025-01-01 plus a later active incident) the unfiltered
board satisfies the ordering property. -/
theorem claim_C1_board_order_witness :
    (∀ r ∈ exBoardDB.incidents, r.is_cleared = 0 ∨ r.is_cleared = 1) ∧
    (fetch_board exBoardDB none none none none).Pairwise (fun a b =>
      (a.is_cleared = 0 ∧ b.is_cleared = 1) ∨
      (a.is_cleared = b.is_cleared ∧ strLeb b.reported_at a.reported_at = true)) :=
  ⟨by decide, claim_C1_board_order exBoardDB none none none none (by decide)⟩

theorem matchesFilters_true_iff (lf : Option Nat) (tf sd ed : Option String) (r : IncidentRow)
    (h0 : lf ≠ some 0) (ht : tf ≠ some "") (hsd : sd ≠ some "") (hed : ed ≠ some "") :
    matchesFilters lf tf sd ed r = true ↔
      ((∀ l, lf = some l → r.location_id = some l) ∧
       (∀ t, tf = some t → r.type = t) ∧
       (∀ d, sd = some d → strLeb (dateOf d) (dateOf r.reported_at) = true) ∧
       (∀ d, ed = some d → strLeb (dateOf r.reported_at) (dateOf d) = true)) := by
  obtain _ | l := lf <;> obtain _ | t := tf <;> obtain _ | d1 := sd <;> obtain _ | d2 := ed <;>
    simp_all [matchesFilters, and_assoc]

/-- Claim C2: an incident appears on the board iff it satisfies every supplied
filter (AND-combined; omitted filters constrain nothing): location by
`location_id` equality, type by exact text equality, and each date bound
comparing only the 10-character date portion of `reported_at`, inclusively.
The hypotheses rule out the filter values Python truthiness treats as absent
(`Some 0`, `Some ""` — the UI never passes them) and assume primary-key
uniqueness of incident ids. -/
theorem claim_C2_board_filter (s : DBState) (lf : Option Nat) (tf sd ed : Option String)
    (hnd : (s.incidents.map (fun r => r.id)).Nodup)
    (h0 : lf ≠ some 0) (ht : tf ≠ some "") (hsd : sd ≠ some "") (hed : ed ≠ some "")
    (r : IncidentRow) (hr : r ∈ s.incidents) :
    (∃ b ∈ fetch_board s lf tf sd ed, b.id = r.id) ↔
      ((∀ l, lf = some l → r.location_id = some l) ∧
       (∀ t, tf = some t → r.type = t) ∧
       (∀ d, sd = some d → strLeb (dateOf d) (dateOf r.reported_at) = true) ∧
       (∀ d, ed = some d → strLeb (dateOf r.reported_at) (dateOf d) = true)) := by
  have hperm := List.perm_insertionSort boardRel
    ((s.incidents.filter (matchesFilters lf tf sd ed)).map (rowOf s))
  constructor
  · rintro ⟨b, hb, hid⟩
    have hb' : b ∈ (s.incidents.filter (matchesFilters lf tf sd ed)).map (rowOf s) :=
      hperm.mem_iff.mp hb
    rcases List.mem_map.mp hb' with ⟨r', hr', hbr⟩
    have hf := List.mem_filter.mp hr'
    have hrr : r' = r := by
      refine List.inj_on_of_nodup_map hnd hf.1 hr ?_
      show r'.id = r.id
      rw [← hid, ← hbr]
      rfl
    rw [← hrr]
    exact (matchesFilters_true_iff lf tf sd ed r' h0 ht hsd hed).mp hf.2
  · intro hR
    refine ⟨rowOf s r, ?_, rfl⟩
    refine hperm.mem_iff.mpr ?_
    exact List.mem_map.mpr ⟨r, List.mem_filter.mpr
      ⟨hr, (matchesFilters_true_iff lf tf sd ed r h0 ht hsd hed).mpr hR⟩, rfl⟩

/-- Claim C2 witness: on `exBoardDB`, incident 4 (reported
"2025-06-01 23:50") appears on the board filtered to the single day
2025-06-01 — date filtering is inclusive and date-only. -/
theorem claim_C2_board_filter_witness :
    ∃ b ∈ fetch_board exBoardDB none none (some "2025-06-01") (some "2025-06-01"), b.id = 4 := by
  refine (claim_C2_board_filter exBoardDB none none (some "2025-06-01") (some "2025-06-01")
      (by decide) (by decide) (by decide) (by decide) (by decide)
      ⟨4, none, "Debris", "2025-06-01 23:50", "", "", "", "", 0⟩ (by decide)).mpr ?_
  refine ⟨?_, ?_, ?_, ?_⟩ <;> intro x hx <;> cases hx <;> decide

/-- Claim C10 witness: un-clearing incident 1 of `exClearDB` with no timestamp
blanks its previously stored `cleared_at`. -/
theorem claim_C10_omitted_ts_blanks_witness :
    (⟨1, none, "Crash", "2025-01-02 10:00", "", "", "", "", 0⟩ : IncidentRow) ∈
        (set_cleared exClearDB 1 false none).incidents ∧
    (⟨1, none, "Crash", "2025-01-02 10:00", "", "", "", "", 0⟩ : IncidentRow).cleared_at = "" :=
  ⟨by decide,
   claim_C10_omitted_ts_blanks exClearDB 1 false
     ⟨1, none, "Crash", "2025-01-02 10:00", "", "", "", "", 0⟩ (by decide) rfl⟩

end IncidentDesk
